import Mathlib

/-!
Shallow embedding of `src/main.py` (CTA silent tracker): the great-circle
distance function `calculate_distance`, the train-ranking logic of the
`find_user_train` endpoint, the evidence-upload logic of `submit_report`,
and the startup environment-variable check.

Modelling conventions:
* Python floats are modelled as real numbers `ℝ`.
* A string-encoded numeric wire value is modelled by `WireFloat`: `num x`
  is a string that Python's `float` parses to the value `x`, `malformed`
  is a string on which `float` raises `ValueError`.
* A possibly-absent dictionary field is an `Option`; code that raises an
  exception is modelled in `Except`.
* `round(d, 1)` is modelled by `round1` via Mathlib's `round` (Python uses
  round-half-to-even on binary floats; the two agree except at exact
  half-tie values, which no theorem below depends on).
-/

open Real List

/-- Python `math.radians x = x * (pi / 180)`. -/
noncomputable def radiansFn (x : ℝ) : ℝ := x * (Real.pi / 180)

/-- Python `math.atan2 y x`: the usual two-argument arctangent, with the
C-library conventions at the axis and origin cases (`atan2 0 0 = 0`). -/
noncomputable def atan2Fn (y x : ℝ) : ℝ :=
  if 0 < x then Real.arctan (y / x)
  else if x < 0 ∧ 0 ≤ y then Real.arctan (y / x) + Real.pi
  else if x < 0 ∧ y < 0 then Real.arctan (y / x) - Real.pi
  else if x = 0 ∧ 0 < y then Real.pi / 2
  else if x = 0 ∧ y < 0 then -(Real.pi / 2)
  else 0

/-- `calculate_distance` from `src/main.py` lines 93-100: haversine distance
in meters with Earth radius fixed at 6371000. -/
noncomputable def calculate_distance (lat1 lon1 lat2 lon2 : ℝ) : ℝ :=
  let R : ℝ := 6371000
  let phi1 := radiansFn lat1
  let phi2 := radiansFn lat2
  let dphi := radiansFn (lat2 - lat1)
  let dlambda := radiansFn (lon2 - lon1)
  let a := Real.sin (dphi / 2) ^ 2 +
    Real.cos phi1 * Real.cos phi2 * Real.sin (dlambda / 2) ^ 2
  let c := 2 * atan2Fn (Real.sqrt a) (Real.sqrt (1 - a))
  R * c

/-- Python `round(x, 1)`: round to one decimal place. -/
noncomputable def round1 (x : ℝ) : ℝ := ((round (x * 10) : ℤ) : ℝ) / 10

/-- A string-encoded numeric value on the wire: `num x` is a string that
Python `float` parses to `x`; `malformed` is a string `float` rejects. -/
inductive WireFloat where
  | num (x : ℝ)
  | malformed

/-- The exception raised while reading a record's field: `keyError` when the
field is absent (`t['lat']` on a dict without `lat`), `valueError` when
`float` is applied to a malformed string. -/
inductive ParseError where
  | keyError
  | valueError
deriving DecidableEq

/-- `float(t[field])` on a possibly-absent, string-encoded field. -/
def parseFloatField : Option WireFloat → Except ParseError ℝ
  | none => .error .keyError
  | some .malformed => .error .valueError
  | some (.num x) => .ok x

/-- A raw vehicle record from the upstream feed, with the fields
`find_user_train` reads: `rn`, `destNm`, `nextStaNm` (always present in the
cases modelled), `lat`/`lon` (string-encoded, possibly absent or malformed),
and the scheduled/ghost flag `isSch` (possibly absent). -/
structure RawVehicleRecord where
  rn : String
  destNm : String
  nextStaNm : String
  lat : Option WireFloat
  lon : Option WireFloat
  isSch : Option String

/-- An entry of the `live_trains` list built by `find_user_train`
(lines 128-135): the dict appended per live record. -/
structure LiveTrain where
  run_number : String
  destination : String
  next_stop : String
  lat : ℝ
  lon : ℝ
  distance_meters : ℝ

/-- The sort key relation of `live_trains.sort(key=lambda x: x['distance_meters'])`. -/
def byDistance (a b : LiveTrain) : Prop := a.distance_meters ≤ b.distance_meters

noncomputable instance : DecidableRel byDistance :=
  fun a b => Real.decidableLE a.distance_meters b.distance_meters

instance : IsTotal LiveTrain byDistance := ⟨fun a b => le_total a.distance_meters b.distance_meters⟩

instance : IsTrans LiveTrain byDistance := ⟨fun _ _ _ h h' => le_trans h h'⟩

/-- Confidence classification of the response (line 144). -/
inductive Confidence where
  | High
  | Low
deriving DecidableEq

/-- The JSON body returned by `find_user_train`: either the found-dict of
lines 141-146 (`found=True`, `closest_train`, `confidence`, `all_trains`) or
the not-found dict of line 148 (`found=False` plus a message, no list
field). -/
inductive RankingResult where
  | found (closest_train : LiveTrain) (confidence : Confidence) (all_trains : List LiveTrain)
  | notFound (message : String)

/-- The loop of lines 119-135: walk the raw records in order; a record whose
`isSch` flag (defaulted to `"0"` when absent) equals `"0"` is live: its
`lat`/`lon` are parsed (an exception propagates), its distance from the
requester is computed with the given distance function and rounded, and the
entry is appended; any other record is skipped. -/
noncomputable def collectLiveTrains (dist : ℝ → ℝ → ℝ → ℝ → ℝ) (lat lon : ℝ) :
    List RawVehicleRecord → Except ParseError (List LiveTrain)
  | [] => .ok []
  | t :: ts =>
    if t.isSch.getD "0" = "0" then
      match parseFloatField t.lat with
      | .error e => .error e
      | .ok t_lat =>
        match parseFloatField t.lon with
        | .error e => .error e
        | .ok t_lon =>
          match collectLiveTrains dist lat lon ts with
          | .error e => .error e
          | .ok rest =>
            .ok (⟨t.rn, t.destNm, t.nextStaNm, t_lat, t_lon,
                  round1 (dist lat lon t_lat t_lon)⟩ :: rest)
    else collectLiveTrains dist lat lon ts

/-- Lines 119-148 of `find_user_train`, parameterized by the distance
function it calls: build `live_trains`, sort it ascending by
`distance_meters` (Python's stable sort, modelled by stable insertion sort),
and return the found-dict with the head as `closest_train` and confidence
`High` iff its rounded distance is `< 200`, or the not-found dict when no
live train remains. -/
noncomputable def findUserTrainWith (dist : ℝ → ℝ → ℝ → ℝ → ℝ) (lat lon : ℝ)
    (raw_trains : List RawVehicleRecord) : Except ParseError RankingResult :=
  match collectLiveTrains dist lat lon raw_trains with
  | .error e => .error e
  | .ok live0 =>
    match live0.insertionSort byDistance with
    | [] => .ok (.notFound "No live trains found.")
    | closest :: rest =>
      .ok (.found closest
        (if closest.distance_meters < 200 then .High else .Low)
        (closest :: rest))

/-- The ranking logic of the `/find-train` endpoint itself: the loop with
the actual haversine `calculate_distance`. -/
noncomputable def find_user_train (lat lon : ℝ) (raw_trains : List RawVehicleRecord) :
    Except ParseError RankingResult :=
  findUserTrainWith calculate_distance lat lon raw_trains

/-- The S3 key built at line 60: `reports/` ++ timestamp ++ `_RUN` ++
run_number ++ `.jpg`, where timestamp is `datetime.now()` formatted as
YYYYMMDD-HHMMSS (the clock is modelled as an input string). -/
def s3KeyOf (timestamp run_number : String) : String :=
  "reports/" ++ timestamp ++ "_RUN" ++ run_number ++ ".jpg"

/-- The object `submit_report` uploads to S3 (lines 65-73): bucket, key,
the uploaded bytes, and the content type passed through unchanged. -/
structure UploadedObject where
  bucket : String
  key : String
  content : List UInt8
  contentType : String

/-- The success JSON body of `submit_report` (line 77). -/
structure SubmitResponse where
  status : String
  file_url : String
  message : String

/-- `submit_report` (lines 52-77) on the success path: build the key from
the timestamp and run number, upload the file bytes under it, and return
the receipt whose `file_url` is the public S3 URL of the key. The `gps`
form field is received but never used. -/
def submit_report (timestamp run_number gps : String) (file_content : List UInt8)
    (content_type : String) (bucket : String) : UploadedObject × SubmitResponse :=
  let s3_key := s3KeyOf timestamp run_number
  let file_url := "https://" ++ bucket ++ ".s3.amazonaws.com/" ++ s3_key
  (⟨bucket, s3_key, file_content, content_type⟩,
   ⟨"success", file_url, "Evidence secured in AWS S3."⟩)

/-- Python truthiness of an `os.getenv` result: `None` and the empty string
are falsy. -/
def truthy : Option String → Bool
  | none => false
  | some s => !s.isEmpty

/-- The module-level check of lines 26-27: if any of the four critical
environment variables is missing (or empty), raise `ValueError` at import
time, before the server starts. -/
def startupCheck (cta_api_key aws_bucket_name aws_access_key_id aws_secret_access_key :
    Option String) : Except String Unit :=
  if truthy cta_api_key && truthy aws_bucket_name &&
      truthy aws_access_key_id && truthy aws_secret_access_key then
    .ok ()
  else
    .error "Missing critical environment variables (CTA_API_KEY, AWS_BUCKET_NAME, or S3 credentials)."

/-! ### Helper lemmas -/

/-- The boolean filter selecting entries at a given rounded distance. -/
noncomputable def atDistance (d : ℝ) (x : LiveTrain) : Bool := decide (x.distance_meters = d)

lemma filter_orderedInsert_atDistance (d : ℝ) (a : LiveTrain) :
    ∀ l : List LiveTrain,
      (l.orderedInsert byDistance a).filter (atDistance d) =
        if a.distance_meters = d then a :: l.filter (atDistance d)
        else l.filter (atDistance d)
  | [] => by
    by_cases h : a.distance_meters = d <;>
      simp [List.orderedInsert, List.filter, atDistance, h]
  | b :: l => by
    by_cases hab : byDistance a b
    · by_cases h : a.distance_meters = d <;>
        simp [List.orderedInsert, hab, List.filter, atDistance, h]
    · have hba : b.distance_meters < a.distance_meters := by
        simpa [byDistance] using hab
      by_cases h : a.distance_meters = d
      · have hb : ¬ b.distance_meters = d := by
          intro hbd; rw [hbd, ← h] at hba; exact lt_irrefl _ (h ▸ hba)
        simp [List.orderedInsert, hab, List.filter, atDistance, h, hb,
          filter_orderedInsert_atDistance d a l]
      · by_cases hb : b.distance_meters = d <;>
          simp [List.orderedInsert, hab, List.filter, atDistance, h, hb,
            filter_orderedInsert_atDistance d a l]

lemma filter_insertionSort_atDistance (d : ℝ) :
    ∀ l : List LiveTrain,
      (l.insertionSort byDistance).filter (atDistance d) = l.filter (atDistance d)
  | [] => rfl
  | a :: l => by
    rw [List.insertionSort, filter_orderedInsert_atDistance]
    by_cases h : a.distance_meters = d <;>
      simp [List.filter, atDistance, h, filter_insertionSort_atDistance d l]

lemma collectLiveTrains_provenance {dist : ℝ → ℝ → ℝ → ℝ → ℝ} {lat lon : ℝ} :
    ∀ {recs : List RawVehicleRecord} {live : List LiveTrain},
      collectLiveTrains dist lat lon recs = .ok live →
      ∀ e ∈ live, ∃ r ∈ recs, r.isSch.getD "0" = "0" ∧
        e.run_number = r.rn ∧ e.destination = r.destNm ∧ e.next_stop = r.nextStaNm
  | [], live, h => by
    simp only [collectLiveTrains, Except.ok.injEq] at h
    subst h; intro e he; cases he
  | t :: ts, live, h => by
    by_cases hsch : t.isSch.getD "0" = "0"
    · simp only [collectLiveTrains, hsch, if_true] at h
      cases hlat : parseFloatField t.lat with
      | error e0 => rw [hlat] at h; cases h
      | ok x =>
        rw [hlat] at h
        cases hlon : parseFloatField t.lon with
        | error e0 => rw [hlon] at h; cases h
        | ok y =>
          rw [hlon] at h
          cases hrest : collectLiveTrains dist lat lon ts with
          | error e0 => rw [hrest] at h; cases h
          | ok rest =>
            rw [hrest] at h
            simp only [Except.ok.injEq] at h
            subst h
            intro e he
            rcases List.mem_cons.mp he with he | he
            · exact ⟨t, List.mem_cons_self t ts, hsch, by rw [he], by rw [he], by rw [he]⟩
            · obtain ⟨r, hr, hrest'⟩ := collectLiveTrains_provenance hrest e he
              exact ⟨r, List.mem_cons_of_mem t hr, hrest'⟩
    · simp only [collectLiveTrains, hsch, if_false] at h
      intro e he
      obtain ⟨r, hr, hrest'⟩ := collectLiveTrains_provenance h e he
      exact ⟨r, List.mem_cons_of_mem t hr, hrest'⟩

/-- The live entries, in order, are exactly the live raw records in upstream
order (witnessed through their run identifiers). -/
lemma collectLiveTrains_map_run_number {dist : ℝ → ℝ → ℝ → ℝ → ℝ} {lat lon : ℝ} :
    ∀ {recs : List RawVehicleRecord} {live : List LiveTrain},
      collectLiveTrains dist lat lon recs = .ok live →
      live.map LiveTrain.run_number =
        (recs.filter fun r => r.isSch.getD "0" == "0").map RawVehicleRecord.rn
  | [], live, h => by
    simp only [collectLiveTrains, Except.ok.injEq] at h
    subst h; rfl
  | t :: ts, live, h => by
    by_cases hsch : t.isSch.getD "0" = "0"
    · simp only [collectLiveTrains, hsch, if_true] at h
      cases hlat : parseFloatField t.lat with
      | error e0 => rw [hlat] at h; cases h
      | ok x =>
        rw [hlat] at h
        cases hlon : parseFloatField t.lon with
        | error e0 => rw [hlon] at h; cases h
        | ok y =>
          rw [hlon] at h
          cases hrest : collectLiveTrains dist lat lon ts with
          | error e0 => rw [hrest] at h; cases h
          | ok rest =>
            rw [hrest] at h
            simp only [Except.ok.injEq] at h
            subst h
            simp [List.filter_cons, hsch, collectLiveTrains_map_run_number hrest]
    · simp only [collectLiveTrains, hsch, if_false] at h
      simp [List.filter_cons, hsch, collectLiveTrains_map_run_number h]

/-- A record the loop fully processes as live: its flag (defaulted) is
`"0"` and both coordinates are parseable numeric strings. -/
def isLiveParseable (r : RawVehicleRecord) : Prop :=
  r.isSch.getD "0" = "0" ∧ (∃ x, r.lat = some (.num x)) ∧ ∃ y, r.lon = some (.num y)

lemma collectLiveTrains_ok_of_all_live {dist : ℝ → ℝ → ℝ → ℝ → ℝ} {lat lon : ℝ} :
    ∀ recs : List RawVehicleRecord, (∀ r ∈ recs, isLiveParseable r) →
      ∃ live, collectLiveTrains dist lat lon recs = .ok live ∧ live.length = recs.length
  | [], _ => ⟨[], rfl, rfl⟩
  | t :: ts, h => by
    obtain ⟨hsch, ⟨x, hx⟩, ⟨y, hy⟩⟩ := h t (List.mem_cons_self t ts)
    obtain ⟨live, hlive, hlen⟩ :=
      @collectLiveTrains_ok_of_all_live dist lat lon ts
        (fun r hr => h r (List.mem_cons_of_mem t hr))
    refine ⟨⟨t.rn, t.destNm, t.nextStaNm, x, y, round1 (dist lat lon x y)⟩ :: live, ?_, ?_⟩
    · simp [collectLiveTrains, hsch, hx, hy, parseFloatField, hlive]
    · simp [hlen]

lemma collectLiveTrains_error_of_malformed {dist : ℝ → ℝ → ℝ → ℝ → ℝ} {lat lon : ℝ} :
    ∀ (recs : List RawVehicleRecord) (r : RawVehicleRecord), r ∈ recs →
      r.isSch.getD "0" = "0" →
      (r.lat = some .malformed ∨ r.lon = some .malformed) →
      ∃ e, collectLiveTrains dist lat lon recs = .error e
  | [], r, hmem, _, _ => absurd hmem (List.not_mem_nil r)
  | t :: ts, r, hmem, hlive, hbad => by
    by_cases hsch : t.isSch.getD "0" = "0"
    · cases hlat : parseFloatField t.lat with
      | error e0 => exact ⟨e0, by simp [collectLiveTrains, hsch, hlat]⟩
      | ok x =>
        cases hlon : parseFloatField t.lon with
        | error e0 => exact ⟨e0, by simp [collectLiveTrains, hsch, hlat, hlon]⟩
        | ok y =>
          have hrts : r ∈ ts := by
            rcases List.mem_cons.mp hmem with he | he
            · subst he
              rcases hbad with hb | hb
              · rw [hb] at hlat; simp [parseFloatField] at hlat
              · rw [hb] at hlon; simp [parseFloatField] at hlon
            · exact he
          obtain ⟨e, he⟩ := @collectLiveTrains_error_of_malformed dist lat lon ts r hrts hlive hbad
          exact ⟨e, by simp [collectLiveTrains, hsch, hlat, hlon, he]⟩
    · have hrts : r ∈ ts := by
        rcases List.mem_cons.mp hmem with he | he
        · subst he; exact absurd hlive hsch
        · exact he
      obtain ⟨e, he⟩ := @collectLiveTrains_error_of_malformed dist lat lon ts r hrts hlive hbad
      exact ⟨e, by simp [collectLiveTrains, hsch, he]⟩

lemma collectLiveTrains_all_ghosts {dist : ℝ → ℝ → ℝ → ℝ → ℝ} {lat lon : ℝ} :
    ∀ recs : List RawVehicleRecord, (∀ r ∈ recs, r.isSch = some "1") →
      collectLiveTrains dist lat lon recs = .ok []
  | [], _ => rfl
  | t :: ts, h => by
    have hsch : t.isSch.getD "0" = "1" := by rw [h t (List.mem_cons_self t ts)]; rfl
    have : ¬ t.isSch.getD "0" = "0" := by rw [hsch]; decide
    simp only [collectLiveTrains, this, if_false]
    exact @collectLiveTrains_all_ghosts dist lat lon ts (fun r hr => h r (List.mem_cons_of_mem t hr))

lemma round1_intCast (n : ℤ) : round1 (n : ℝ) = (n : ℝ) := by
  unfold round1
  rw [show ((n : ℝ) * 10) = ((n * 10 : ℤ) : ℝ) by push_cast; ring, round_intCast]
  push_cast; ring

lemma round1_zero : round1 0 = 0 := by
  have h := round1_intCast 0
  norm_num at h
  exact h

lemma findUserTrainWith_eq_of_ok {dist : ℝ → ℝ → ℝ → ℝ → ℝ} {lat lon : ℝ}
    {recs : List RawVehicleRecord} {live : List LiveTrain}
    (hcol : collectLiveTrains dist lat lon recs = .ok live) :
    findUserTrainWith dist lat lon recs =
      match live.insertionSort byDistance with
      | [] => .ok (.notFound "No live trains found.")
      | closest :: rest =>
        .ok (.found closest
          (if closest.distance_meters < 200 then .High else .Low)
          (closest :: rest)) := by
  unfold findUserTrainWith
  rw [hcol]

/-! ### Claim theorems -/

/-- Claim C1: only live (non-ghost) records are eligible to become the
closest train; in particular, on a list with one live train whose rounded
distance is 150 and one ghost (flag `"1"`) train at rounded distance 50,
ranking returns the found-dict with the live 150m train as closest and
confidence High. -/
theorem C1_only_live_closest
    (dist : ℝ → ℝ → ℝ → ℝ → ℝ) (lat lon : ℝ) (t1 t2 : RawVehicleRecord)
    (la1 lo1 la2 lo2 : ℝ)
    (h1sch : t1.isSch = some "0")
    (h1lat : t1.lat = some (.num la1)) (h1lon : t1.lon = some (.num lo1))
    (h1d : round1 (dist lat lon la1 lo1) = 150)
    (h2sch : t2.isSch = some "1")
    (h2lat : t2.lat = some (.num la2)) (h2lon : t2.lon = some (.num lo2))
    (h2d : round1 (dist lat lon la2 lo2) = 50) :
    (∀ (recs : List RawVehicleRecord) (c : LiveTrain) (conf : Confidence)
        (l : List LiveTrain),
      findUserTrainWith dist lat lon recs = .ok (.found c conf l) →
      ∃ r ∈ recs, r.isSch.getD "0" = "0" ∧ c.run_number = r.rn) ∧
    findUserTrainWith dist lat lon [t1, t2] =
      .ok (.found ⟨t1.rn, t1.destNm, t1.nextStaNm, la1, lo1, 150⟩ .High
        [⟨t1.rn, t1.destNm, t1.nextStaNm, la1, lo1, 150⟩]) := by
  constructor
  · intro recs c conf l h
    cases hcol : collectLiveTrains dist lat lon recs with
    | error e => unfold findUserTrainWith at h; rw [hcol] at h; cases h
    | ok live =>
      rw [findUserTrainWith_eq_of_ok hcol] at h
      cases hsort : live.insertionSort byDistance with
      | nil => rw [hsort] at h; simp at h
      | cons c' rest' =>
        rw [hsort] at h
        simp only [Except.ok.injEq, RankingResult.found.injEq] at h
        have hc' : c' ∈ live := by
          rw [← List.mem_insertionSort byDistance (l := live), hsort]
          exact List.mem_cons_self c' rest'
        obtain ⟨r, hr, hflag, hrn, _⟩ := collectLiveTrains_provenance hcol c' hc'
        exact ⟨r, hr, hflag, by rw [← h.1]; exact hrn⟩
  · have h2 : ¬ t2.isSch.getD "0" = "0" := by rw [h2sch]; decide
    have hcol : collectLiveTrains dist lat lon [t1, t2] =
        .ok [⟨t1.rn, t1.destNm, t1.nextStaNm, la1, lo1, 150⟩] := by
      simp [collectLiveTrains, h1sch, h1lat, h1lon, parseFloatField, h2, h1d]
    simp only [findUserTrainWith, hcol]
    norm_num

/-- Witness for C1 at a concrete input: live train "101" at rounded distance
150, ghost train "102" at rounded distance 50. -/
theorem C1_only_live_closest_witness :
    findUserTrainWith (fun _ _ a _ => a) 0 0
      [⟨"101", "Howard", "Clark/Lake", some (.num 150), some (.num 0), some "0"⟩,
       ⟨"102", "Howard", "Clark/Lake", some (.num 50), some (.num 0), some "1"⟩] =
      .ok (.found ⟨"101", "Howard", "Clark/Lake", 150, 0, 150⟩ .High
        [⟨"101", "Howard", "Clark/Lake", 150, 0, 150⟩]) := by
  have h150 : round1 ((150 : ℝ)) = 150 := by
    have h := round1_intCast 150; norm_num at h; exact h
  have h50 : round1 ((50 : ℝ)) = 50 := by
    have h := round1_intCast 50; norm_num at h; exact h
  exact (C1_only_live_closest (fun _ _ a _ => a) 0 0 _ _ 150 0 50 0
    rfl rfl rfl h150 rfl rfl rfl h50).2

/-- Claim C2: for every non-empty list of live (parseable) records, ranking
returns a found-dict and its confidence is High exactly when the closest
entry's rounded distance is strictly below 200 meters, Low otherwise. -/
theorem C2_confidence_rule
    (dist : ℝ → ℝ → ℝ → ℝ → ℝ) (lat lon : ℝ) (recs : List RawVehicleRecord)
    (hne : recs ≠ []) (hall : ∀ r ∈ recs, isLiveParseable r) :
    ∃ c conf l, findUserTrainWith dist lat lon recs = .ok (.found c conf l) ∧
      conf = (if c.distance_meters < 200 then Confidence.High else Confidence.Low) := by
  obtain ⟨live, hlive, hlen⟩ := @collectLiveTrains_ok_of_all_live dist lat lon recs hall
  have hlivene : live ≠ [] := by
    intro h0
    rw [h0] at hlen
    exact hne (List.eq_nil_of_length_eq_zero hlen.symm)
  cases hsort : live.insertionSort byDistance with
  | nil =>
    have : live.length = 0 := by
      rw [← List.length_insertionSort byDistance live, hsort]; rfl
    exact absurd (List.eq_nil_of_length_eq_zero this) hlivene
  | cons c rest =>
    refine ⟨c, if c.distance_meters < 200 then .High else .Low, c :: rest, ?_, rfl⟩
    rw [findUserTrainWith_eq_of_ok hlive, hsort]

/-- Witness for C2: a single live record at the origin (rounded distance 0,
confidence High). -/
theorem C2_confidence_rule_witness :
    ∃ c conf l, findUserTrainWith (fun _ _ _ _ => 0) 0 0
        [⟨"205", "Linden", "Noyes", some (.num 0), some (.num 0), some "0"⟩] =
      .ok (.found c conf l) ∧
      conf = (if c.distance_meters < 200 then Confidence.High else Confidence.Low) :=
  C2_confidence_rule (fun _ _ _ _ => 0) 0 0 _ (by simp)
    (by
      intro r hr
      simp only [List.mem_singleton] at hr
      subst hr
      exact ⟨rfl, ⟨0, rfl⟩, ⟨0, rfl⟩⟩)

/-- Claim C3: the returned `all_trains` list is sorted ascending by
`distance_meters`; entries with equal distance keep their upstream relative
order (filtering the output at any fixed distance gives the pre-sort list
filtered at that distance, and the pre-sort list preserves the upstream
order of the live records, witnessed through run identifiers). -/
theorem C3_sorted_and_stable
    (dist : ℝ → ℝ → ℝ → ℝ → ℝ) (lat lon : ℝ) (recs : List RawVehicleRecord)
    (live l : List LiveTrain) (c : LiveTrain) (conf : Confidence)
    (hcol : collectLiveTrains dist lat lon recs = .ok live)
    (hfind : findUserTrainWith dist lat lon recs = .ok (.found c conf l)) :
    l.Sorted byDistance ∧
    (∀ d : ℝ, l.filter (atDistance d) = live.filter (atDistance d)) ∧
    live.map LiveTrain.run_number =
      (recs.filter fun r => r.isSch.getD "0" == "0").map RawVehicleRecord.rn := by
  have hl : l = live.insertionSort byDistance := by
    rw [findUserTrainWith_eq_of_ok hcol] at hfind
    cases hsort : live.insertionSort byDistance with
    | nil => rw [hsort] at hfind; simp at hfind
    | cons c' rest' =>
      rw [hsort] at hfind
      simp only [Except.ok.injEq, RankingResult.found.injEq] at hfind
      exact hfind.2.2.symm
  refine ⟨?_, ?_, collectLiveTrains_map_run_number hcol⟩
  · rw [hl]
    exact List.sorted_insertionSort byDistance live
  · intro d
    rw [hl]
    exact filter_insertionSort_atDistance d live

/-- Witness for C3: two live trains tied at rounded distance 0; the output
list is sorted, keeps the tie in upstream order, and the run identifiers
match the upstream live records in order. -/
theorem C3_sorted_and_stable_witness :
    ([⟨"301", "Kimball", "Belmont", 0, 0, round1 0⟩,
      ⟨"302", "Kimball", "Belmont", 0, 0, round1 0⟩] : List LiveTrain).Sorted byDistance ∧
    ([⟨"301", "Kimball", "Belmont", 0, 0, round1 0⟩,
      ⟨"302", "Kimball", "Belmont", 0, 0, round1 0⟩] : List LiveTrain).filter (atDistance 0) =
      ([⟨"301", "Kimball", "Belmont", 0, 0, round1 0⟩,
        ⟨"302", "Kimball", "Belmont", 0, 0, round1 0⟩] : List LiveTrain).filter (atDistance 0) ∧
    ([⟨"301", "Kimball", "Belmont", 0, 0, round1 0⟩,
      ⟨"302", "Kimball", "Belmont", 0, 0, round1 0⟩] : List LiveTrain).map LiveTrain.run_number =
      (([⟨"301", "Kimball", "Belmont", some (.num 0), some (.num 0), some "0"⟩,
         ⟨"302", "Kimball", "Belmont", some (.num 0), some (.num 0), some "0"⟩] :
        List RawVehicleRecord).filter fun r => r.isSch.getD "0" == "0").map
        RawVehicleRecord.rn := by
  have hfind : findUserTrainWith (fun _ _ _ _ => 0) 0 0
      [⟨"301", "Kimball", "Belmont", some (.num 0), some (.num 0), some "0"⟩,
       ⟨"302", "Kimball", "Belmont", some (.num 0), some (.num 0), some "0"⟩] =
      .ok (.found ⟨"301", "Kimball", "Belmont", 0, 0, round1 0⟩ .High
        [⟨"301", "Kimball", "Belmont", 0, 0, round1 0⟩,
         ⟨"302", "Kimball", "Belmont", 0, 0, round1 0⟩]) := by
    have hcol : collectLiveTrains (fun _ _ _ _ => 0) 0 0
        [⟨"301", "Kimball", "Belmont", some (.num 0), some (.num 0), some "0"⟩,
         ⟨"302", "Kimball", "Belmont", some (.num 0), some (.num 0), some "0"⟩] =
        .ok [⟨"301", "Kimball", "Belmont", 0, 0, round1 0⟩,
             ⟨"302", "Kimball", "Belmont", 0, 0, round1 0⟩] := rfl
    rw [findUserTrainWith_eq_of_ok hcol]
    norm_num [byDistance, round1_zero]
  have h := C3_sorted_and_stable (fun _ _ _ _ => 0) 0 0
    [⟨"301", "Kimball", "Belmont", some (.num 0), some (.num 0), some "0"⟩,
     ⟨"302", "Kimball", "Belmont", some (.num 0), some (.num 0), some "0"⟩]
    [⟨"301", "Kimball", "Belmont", 0, 0, round1 0⟩,
     ⟨"302", "Kimball", "Belmont", 0, 0, round1 0⟩]
    [⟨"301", "Kimball", "Belmont", 0, 0, round1 0⟩,
     ⟨"302", "Kimball", "Belmont", 0, 0, round1 0⟩]
    ⟨"301", "Kimball", "Belmont", 0, 0, round1 0⟩ .High rfl hfind
  exact ⟨h.1, h.2.1 0, h.2.2⟩

/-- Claim C4: on an empty record list, the built live list is empty and the
endpoint returns the not-found body (`found=False`). -/
theorem C4_empty_records (dist : ℝ → ℝ → ℝ → ℝ → ℝ) (lat lon : ℝ) :
    collectLiveTrains dist lat lon [] = .ok [] ∧
    findUserTrainWith dist lat lon [] = .ok (.notFound "No live trains found.") :=
  ⟨rfl, rfl⟩

/-- Counterexample to claim C5 as stated: a record whose latitude string is
malformed does NOT always make ranking fail — a ghost record (flag `"1"`)
with malformed coordinates is silently skipped, because the loop tests the
ghost flag before ever reading `lat`/`lon`, and ranking succeeds with the
not-found body. -/
theorem C5_counterexample :
    findUserTrainWith (fun _ _ _ _ => 0) 0 0
      [⟨"702", "Midway", "Pulaski", some .malformed, some .malformed, some "1"⟩] =
      .ok (.notFound "No live trains found.") := rfl

/-- Claim C5, amended: for every record that the loop treats as live (flag
`"0"` or absent) whose latitude or longitude string is malformed, ranking
fails with a parse error that propagates; such a record is never silently
skipped and the failure is not recovered. (Ghost records' coordinate strings
are never read, so they cannot cause this failure.) -/
theorem C5_live_malformed_fails
    (dist : ℝ → ℝ → ℝ → ℝ → ℝ) (lat lon : ℝ)
    (recs : List RawVehicleRecord) (r : RawVehicleRecord)
    (hmem : r ∈ recs) (hlive : r.isSch.getD "0" = "0")
    (hbad : r.lat = some .malformed ∨ r.lon = some .malformed) :
    ∃ e, findUserTrainWith dist lat lon recs = .error e := by
  obtain ⟨e, he⟩ := @collectLiveTrains_error_of_malformed dist lat lon recs r hmem hlive hbad
  refine ⟨e, ?_⟩
  unfold findUserTrainWith
  rw [he]

/-- Witness for the amended C5: one live record with a malformed latitude
string makes ranking fail. -/
theorem C5_live_malformed_fails_witness :
    ∃ e, findUserTrainWith (fun _ _ _ _ => 0) 0 0
      [⟨"702", "Midway", "Pulaski", some .malformed, some (.num 3), some "0"⟩] =
      .error e :=
  C5_live_malformed_fails (fun _ _ _ _ => 0) 0 0 _ _
    (List.mem_singleton_self _) rfl (Or.inl rfl)

/-- Claim C6: when every record is a ghost (flag `"1"`), ranking returns the
not-found body (`found=False`) and no closest train. -/
theorem C6_only_ghost_trains (dist : ℝ → ℝ → ℝ → ℝ → ℝ) (lat lon : ℝ)
    (recs : List RawVehicleRecord) (h : ∀ r ∈ recs, r.isSch = some "1") :
    findUserTrainWith dist lat lon recs = .ok (.notFound "No live trains found.") := by
  have hc := @collectLiveTrains_all_ghosts dist lat lon recs h
  unfold findUserTrainWith
  rw [hc]
  rfl

/-- Witness for C6: a single ghost record yields the not-found body. -/
theorem C6_only_ghost_trains_witness :
    findUserTrainWith (fun _ _ _ _ => 0) 0 0
      [⟨"417", "Loop", "Roosevelt", some (.num 1), some (.num 2), some "1"⟩] =
      .ok (.notFound "No live trains found.") :=
  C6_only_ghost_trains (fun _ _ _ _ => 0) 0 0 _
    (by intro r hr; simp only [List.mem_singleton] at hr; rw [hr])

/-- Claim C7: the storage key is generated deterministically as
`reports/` ++ timestamp ++ `_RUN` ++ run_number ++ `.jpg`, the uploaded
bytes are exactly the submitted bytes, and the receipt's public reference
(`file_url`) contains the run number as a substring. -/
theorem C7_storage_key_shape (timestamp run_number gps : String)
    (file_content : List UInt8) (content_type bucket : String) :
    (submit_report timestamp run_number gps file_content content_type bucket).1.key =
        "reports/" ++ timestamp ++ "_RUN" ++ run_number ++ ".jpg" ∧
    (submit_report timestamp run_number gps file_content content_type bucket).1.content =
        file_content ∧
    ∃ p q, (submit_report timestamp run_number gps file_content content_type bucket).2.file_url
        = p ++ run_number ++ q := by
  refine ⟨rfl, rfl,
    "https://" ++ bucket ++ ".s3.amazonaws.com/" ++ ("reports/" ++ timestamp ++ "_RUN"),
    ".jpg", ?_⟩
  simp [submit_report, s3KeyOf, String.append_assoc]

/-- Claim C8: if any of the four critical configuration values (transit API
key, bucket name, access key id, secret access key) is absent, the startup
check fails with the fatal error, before any request is served. -/
theorem C8_startup_missing_config (cta bucket akid secret : Option String)
    (h : cta = none ∨ bucket = none ∨ akid = none ∨ secret = none) :
    startupCheck cta bucket akid secret =
      .error "Missing critical environment variables (CTA_API_KEY, AWS_BUCKET_NAME, or S3 credentials)." := by
  rcases h with h | h | h | h <;> subst h <;> simp [startupCheck, truthy]

/-- Witness for C8: a missing transit API key is fatal. -/
theorem C8_startup_missing_config_witness :
    startupCheck none (some "bucket") (some "id") (some "secret") =
      .error "Missing critical environment variables (CTA_API_KEY, AWS_BUCKET_NAME, or S3 credentials)." :=
  C8_startup_missing_config none (some "bucket") (some "id") (some "secret") (Or.inl rfl)

/-- Claim C9: `calculate_distance` is symmetric in its two coordinate
pairs. -/
theorem C9_calculate_distance_symm (lat1 lon1 lat2 lon2 : ℝ) :
    calculate_distance lat1 lon1 lat2 lon2 = calculate_distance lat2 lon2 lat1 lon1 := by
  have key : ∀ x y : ℝ,
      Real.sin (radiansFn (x - y) / 2) ^ 2 = Real.sin (radiansFn (y - x) / 2) ^ 2 := by
    intro x y
    have h : radiansFn (x - y) / 2 = -(radiansFn (y - x) / 2) := by
      unfold radiansFn; ring
    rw [h, Real.sin_neg, neg_sq]
  simp only [calculate_distance]
  rw [key lat2 lat1, key lon2 lon1,
    mul_comm (Real.cos (radiansFn lat1)) (Real.cos (radiansFn lat2))]

/-- Claim C10 (implicit): a record with no `isSch` field at all is treated
as live — the flag defaults to `"0"` — so it is parsed and appended like any
live record, and alone in the list it becomes the closest train of a
found-dict. -/
theorem C10_missing_flag_is_live
    (dist : ℝ → ℝ → ℝ → ℝ → ℝ) (lat lon : ℝ) (t : RawVehicleRecord)
    (ts : List RawVehicleRecord) (la lo : ℝ)
    (hsch : t.isSch = none) (hlat : t.lat = some (.num la))
    (hlon : t.lon = some (.num lo)) :
    collectLiveTrains dist lat lon (t :: ts) =
      (collectLiveTrains dist lat lon ts).map
        (fun rest =>
          (⟨t.rn, t.destNm, t.nextStaNm, la, lo, round1 (dist lat lon la lo)⟩ : LiveTrain)
            :: rest) ∧
    findUserTrainWith dist lat lon [t] =
      .ok (.found ⟨t.rn, t.destNm, t.nextStaNm, la, lo, round1 (dist lat lon la lo)⟩
        (if round1 (dist lat lon la lo) < 200 then .High else .Low)
        [⟨t.rn, t.destNm, t.nextStaNm, la, lo, round1 (dist lat lon la lo)⟩]) := by
  constructor
  · cases hrest : collectLiveTrains dist lat lon ts with
    | error e =>
      simp [collectLiveTrains, hsch, hlat, hlon, parseFloatField, hrest, Except.map]
    | ok rest =>
      simp [collectLiveTrains, hsch, hlat, hlon, parseFloatField, hrest, Except.map]
  · have hcol : collectLiveTrains dist lat lon [t] =
        .ok [⟨t.rn, t.destNm, t.nextStaNm, la, lo, round1 (dist lat lon la lo)⟩] := by
      simp [collectLiveTrains, hsch, hlat, hlon, parseFloatField]
    rw [findUserTrainWith_eq_of_ok hcol]
    simp

/-- Witness for C10: a record without the ghost flag, at rounded distance 0,
is ranked and found as closest with High confidence. -/
theorem C10_missing_flag_is_live_witness :
    findUserTrainWith (fun _ _ _ _ => 0) 0 0
      [⟨"88", "54th/Cermak", "Kedzie", some (.num 0), some (.num 0), none⟩] =
      .ok (.found ⟨"88", "54th/Cermak", "Kedzie", 0, 0, 0⟩ .High
        [⟨"88", "54th/Cermak", "Kedzie", 0, 0, 0⟩]) := by
  have h := (C10_missing_flag_is_live (fun _ _ _ _ => 0) 0 0
    ⟨"88", "54th/Cermak", "Kedzie", some (.num 0), some (.num 0), none⟩ [] 0 0
    rfl rfl rfl).2
  rw [round1_zero] at h
  norm_num at h
  exact h
